import Mathlib

/-!
Shallow embedding of the lfs-auto-grader execution-and-reporting engine
(the `internal/adapters` scorer and the `internal/manager` orchestrator from
the repository) together with theorems checking the specification's claims.

Conventions used throughout:
* Go `int` / `int64` fields become `Int`; Go `float64` score arithmetic is ℚ.
* JSON parse boundaries (`json.Unmarshal`, the judgerproto codec, `os.Stat`
  on the report artifact, `os.MkdirTemp`) are carried as already-classified
  data (`Except` / `Option` / `Bool`), since the parsing and OS packages are
  external to the embedded sources.
* Queue traffic is recorded as an event trace.  In the source a failed remote
  call is only logged and never changes control flow, so call failures are
  not modelled; the trace records the calls the orchestrator attempts.
-/

namespace Grader

/-- Canonical solution statuses.  Modelled from the spec: the status constants
live in `pkg/aoiclient`, which is not among the embedded sources; spec §4.1
fixes the canonical enumerated set, which contains a single generic error
status "Error", used here for both the `StatusError` and the
`StatusInternalError` constants of the source. -/
def StatusAccepted : String := "Accepted"

def StatusWrongAnswer : String := "Wrong Answer"

def StatusTimeLimitExceeded : String := "Time Limit Exceeded"

def StatusMemoryLimitExceeded : String := "Memory Limit Exceeded"

def StatusRuntimeError : String := "Runtime Error"

def StatusCompileError : String := "Compile Error"

def StatusError : String := "Error"

def StatusInternalError : String := "Error"

/-- Queue-side mutable record for a task: `aoiclient.SolutionInfo`
(score, status, message). -/
structure SolutionInfo where
  score : ℚ
  status : String
  message : String
deriving Repr, DecidableEq

/-- One per-test entry of the structured breakdown:
`aoiclient.SolutionDetailsTest`. -/
structure SolutionDetailsTest where
  name : String
  score : ℚ
  scoreScale : ℚ
  status : String
  summary : String
deriving Repr, DecidableEq

/-- One job of the structured breakdown: `aoiclient.SolutionDetailsJob`. -/
structure SolutionDetailsJob where
  name : String
  score : ℚ
  scoreScale : ℚ
  status : String
  summary : String
  tests : List SolutionDetailsTest
deriving Repr, DecidableEq

/-- Queue-side structured breakdown: `aoiclient.SolutionDetails`. -/
structure SolutionDetails where
  version : Int
  summary : String
  jobs : List SolutionDetailsJob
deriving Repr, DecidableEq

/-- One remote call to the queue (the aoiclient `Patch` / `SaveDetails` /
`Complete` primitives used by the manager). -/
inductive QCall where
  | patch (info : SolutionInfo)
  | saveDetails (d : SolutionDetails)
  | complete
deriving Repr, DecidableEq

/-- One observable event of a task's processing: a queue call, or the start of
the sandbox container (the `ExecuteWithLogs` invocation). -/
inductive Event where
  | qcall (c : QCall)
  | execStart
deriving Repr, DecidableEq

/-- A decoded protocol message (`judgerproto` actions).  For the actions that
carry a body, the body field holds the result of unmarshalling the raw body
into that action's schema: `none` means the body did not unmarshal. -/
inductive ProtoMessage where
  | greet
  | noop
  | log (body : Option String)
  | error (body : Option String)
  | patch (body : Option SolutionInfo)
  | detail (body : Option SolutionDetails)
  | complete
  | quit
deriving Repr, DecidableEq

/-- Queue calls made by `Manager.processMessage` for one output line
(internal/manager, `processMessage`).  The line is carried as the codec's
decode result: `none` means `judgerproto.MessageFromString` failed (not valid
JSON, or an unrecognized action tag) and the line is silently ignored;
a constructor body of `none` means the action was recognized but its body did
not unmarshal, in which case the source also makes no call. -/
def processMessage : Option ProtoMessage → List QCall
  | none => []
  | some .greet => []
  | some .noop => []
  | some (.log _) => []
  | some (.error none) => []
  | some (.error (some s)) => [QCall.patch ⟨0, StatusInternalError, s⟩]
  | some (.patch none) => []
  | some (.patch (some b)) => [QCall.patch b]
  | some (.detail none) => []
  | some (.detail (some d)) => [QCall.saveDetails d]
  | some .complete => [QCall.complete]
  | some .quit => []

/-! ### Pytest report adapter (internal/adapters, extended version) -/

/-- Summary block of a pytest JSON report (extended version, with xfailed). -/
structure PytestReportSummary where
  passed : Int
  failed : Int
  skipped : Int
  xfailed : Int
  total : Int
  collected : Int
deriving Repr, DecidableEq

/-- Crash information of one pytest test phase. -/
structure PytestCrashInfo where
  path : String
  lineno : Int
  message : String
deriving Repr, DecidableEq

/-- One pytest test phase (setup / call / teardown). -/
structure PytestTestPhase where
  duration : ℚ
  outcome : String
  crash : Option PytestCrashInfo
  longrepr : String
deriving Repr, DecidableEq

/-- One pytest test case. -/
structure PytestTestCase where
  nodeId : String
  lineno : Int
  outcome : String
  keywords : List String
  setup : Option PytestTestPhase
  call : Option PytestTestPhase
  teardown : Option PytestTestPhase
deriving Repr, DecidableEq

/-- A pytest JSON report (extended version).  The free-form `environment`
metadata map of the Go struct is not consulted by any embedded function and
is omitted. -/
structure PytestReport where
  created : ℚ
  duration : ℚ
  exitCode : Int
  root : String
  summary : PytestReportSummary
  tests : List PytestTestCase
deriving Repr, DecidableEq

/-- Scoring result: `LFS1Result`. -/
structure LFS1Result where
  score : ℚ
  status : String
  message : String
  details : SolutionDetails
deriving Repr, DecidableEq

/-- Test name extracted from a pytest nodeid (`extractTestName`):
the part after the last "::". -/
def extractTestName (nodeid : String) : String :=
  let parts := nodeid.splitOn "::"
  (parts.getLast?).getD nodeid

/-- Status for one pytest outcome (`outcomeToStatus`). -/
def outcomeToStatus (outcome : String) : String :=
  if outcome = "passed" then StatusAccepted
  else if outcome = "failed" then StatusWrongAnswer
  else if outcome = "skipped" then "Skipped"
  else if outcome = "xfailed" then StatusAccepted
  else if outcome = "xpassed" then StatusAccepted
  else StatusWrongAnswer

/-- Summary line for one test case (`generateTestSummary`).  The source
truncates `longrepr` at 200 bytes; this model counts characters, an
abstraction that matters only for multi-byte text inside this
display-only string. -/
def generateTestSummary (test : PytestTestCase) : String :=
  if test.outcome = "passed" then "通过"
  else if test.outcome = "xfailed" then "预期失败"
  else if test.outcome = "xpassed" then "预期失败但通过"
  else if test.outcome = "skipped" then "跳过"
  else if test.outcome = "failed" then
    match test.call with
    | some phase =>
      match phase.crash with
      | some crash => if crash.message = "" then
          (if phase.longrepr = "" then "测试失败"
           else if phase.longrepr.length > 200 then
             (phase.longrepr.take 200) ++ "..."
           else phase.longrepr)
        else crash.message
      | none =>
        if phase.longrepr = "" then "测试失败"
        else if phase.longrepr.length > 200 then
          (phase.longrepr.take 200) ++ "..."
        else phase.longrepr
    | none => "测试失败"
  else test.outcome

/-- Score, status, message and details computed from a pytest report
(`CalculateScore`, extended version: xfailed counts as passed). -/
def CalculateScore (report : PytestReport) : LFS1Result :=
  let summary := report.summary
  let total := summary.total
  let passed := summary.passed + summary.xfailed
  let score : ℚ := if total > 0 then (passed : ℚ) / (total : ℚ) * 100 else 0
  let statusMessage :=
    if summary.failed = 0 ∧ passed = total then
      (StatusAccepted,
        "全部通过 " ++ toString passed ++ "/" ++ toString total ++ " 测试点")
    else if passed > 0 then
      (StatusWrongAnswer,
        "通过 " ++ toString passed ++ "/" ++ toString total ++ " 测试点，失败 "
          ++ toString summary.failed ++ " 个")
    else
      (StatusWrongAnswer, "未通过任何测试点 (0/" ++ toString total ++ ")")
  let status := statusMessage.1
  let message := statusMessage.2 ++
    (if summary.skipped > 0 then "，跳过 " ++ toString summary.skipped ++ " 个"
     else "") ++
    (if summary.xfailed > 0 then
      "，预期失败 " ++ toString summary.xfailed ++ " 个"
     else "")
  let jobs := report.tests.map (fun test =>
    { name := extractTestName test.nodeId
      score := if test.outcome = "passed" ∨ test.outcome = "xfailed"
                  ∨ test.outcome = "xpassed" then (100 : ℚ) else 0
      scoreScale := 1
      status := outcomeToStatus test.outcome
      summary := generateTestSummary test
      tests := ([] : List SolutionDetailsTest) })
  { score := score, status := status, message := message,
    details := { version := 1, summary := message, jobs := jobs } }

/-! ### Pytest report adapter, simplified earlier version -/

/-- Summary block of the simplified (earlier) adapter's report struct: it has
no xfailed field. -/
structure PytestReportSummaryV1 where
  passed : Int
  failed : Int
  skipped : Int
  total : Int
  collected : Int
deriving Repr, DecidableEq

/-- Pytest report as parsed by the simplified (earlier) adapter: no per-test
list. -/
structure PytestReportV1 where
  created : ℚ
  duration : ℚ
  exitCode : Int
  root : String
  summary : PytestReportSummaryV1
deriving Repr, DecidableEq

/-- Score, status, message and details computed by the simplified (earlier)
`CalculateScore`.  The per-job duration summary uses Go's `%.2f` rendering;
here it is rendered with `toString`, an abstraction confined to this
display-only string. -/
def CalculateScoreV1 (report : PytestReportV1) : LFS1Result :=
  let summary := report.summary
  let total := summary.total
  let passed := summary.passed
  let score : ℚ := if total > 0 then (passed : ℚ) / (total : ℚ) * 100 else 0
  let statusMessage :=
    if summary.failed = 0 ∧ passed = total then
      (StatusAccepted,
        "全部通过 " ++ toString passed ++ "/" ++ toString total ++ " 测试点")
    else if passed > 0 then
      (StatusWrongAnswer,
        "通过 " ++ toString passed ++ "/" ++ toString total ++ " 测试点，失败 "
          ++ toString summary.failed ++ " 个")
    else
      (StatusWrongAnswer, "未通过任何测试点 (0/" ++ toString total ++ ")")
  let status := statusMessage.1
  let message := statusMessage.2 ++
    (if summary.skipped > 0 then "，跳过 " ++ toString summary.skipped ++ " 个"
     else "")
  { score := score, status := status, message := message,
    details :=
      { version := 1, summary := message,
        jobs := [
          { name := "pytest", score := score, scoreScale := 100,
            status := status,
            summary := "执行耗时 " ++ toString report.duration ++ " 秒",
            tests := [
              { name := "通过", score := (passed : ℚ),
                scoreScale := (total : ℚ), status := StatusAccepted,
                summary := toString passed ++ " 个测试通过" },
              { name := "失败", score := 0,
                scoreScale := (summary.failed : ℚ),
                status := StatusWrongAnswer,
                summary := toString summary.failed ++ " 个测试失败" }] }] } }

/-- Projection of an extended report onto the simplified report struct:
`json.Unmarshal` into the earlier struct reads the same bytes but ignores the
`xfailed` and `tests` keys, so parsing one report with both versions relates
the results by exactly this projection. -/
def forgetV1 (r : PytestReport) : PytestReportV1 :=
  { created := r.created, duration := r.duration, exitCode := r.exitCode,
    root := r.root,
    summary :=
      { passed := r.summary.passed, failed := r.summary.failed,
        skipped := r.summary.skipped, total := r.summary.total,
        collected := r.summary.collected } }

/-! ### Judge configuration and execution specification
(internal/manager: RunningConfig, buildExecuteConfig) -/

/-- One bind mount: `MountConfig` of the judge config and `executor.Mount`
of the execution specification (field-identical structs in the source). -/
structure Mount where
  source : String
  target : String
  readOnly : Bool
deriving Repr, DecidableEq

/-- The free-form `variables` map of the judge config (Go `map[string]any`).
The source uses it in exactly two ways, both carried here as pre-computed
data: `serialized` is the `json.Marshal` rendering of the whole map (marshal
of values that came from `json.Unmarshal` cannot fail), and `reportName` is
the string-typed `report_name` entry when present. -/
structure VarsData where
  serialized : String
  reportName : Option String
deriving Repr, DecidableEq

/-- Judge running configuration: `RunningConfig` (conf.json `judge.config`).
A `variables` of `none` is Go's nil map (key absent from the JSON). -/
structure RunningConfig where
  image : String
  preCmd : List String
  dockerCmd : List String
  postCmd : List String
  timeout : Int
  memoryLimit : Int
  cpuLimit : ℚ
  env : String → Option String
  workDir : String
  mounts : List Mount
  vars : Option VarsData

/-- Execution specification handed to the executor: `executor.ExecuteConfig`. -/
structure ExecuteConfig where
  image : String
  command : List String
  timeout : Int
  memoryLimit : Int
  cpuLimit : ℚ
  env : String → Option String
  workDir : String
  mounts : List Mount

/-- Map update (Go `m[k] = v` on a `map[string]string`). -/
def envSet (e : String → Option String) (k v : String) :
    String → Option String :=
  fun x => if x = k then some v else e x

/-- Judge specification of a polled task: adapter identifier plus the raw
judge config.  The raw config is `json.RawMessage` in the source and is
unmarshalled inside `Manager.run`; the unmarshal outcome is carried here as
data (`Except` with the decode-error text). -/
structure JudgeSpec where
  adapter : String
  config : Except String RunningConfig

/-- Problem configuration of a polled task. -/
structure ProblemConfig where
  label : String
  judge : JudgeSpec

/-- One polled task: `aoiclient.SolutionPoll`. -/
structure SolutionPoll where
  solutionId : String
  taskId : String
  userId : String
  contestId : String
  solutionDataUrl : String
  solutionDataHash : String
  problemDataUrl : String
  problemDataHash : String
  problemConfig : ProblemConfig

/-- Execution specification built from a task and its judge config
(`Manager.buildExecuteConfig`, the version with an output directory).
`sharedVolumePath` is the instance-wide shared volume
(`m.conf.SharedVolumePath`). -/
def buildExecuteConfig (soln : SolutionPoll) (rc : RunningConfig)
    (outputDir : String) (sharedVolumePath : String) :
    Except String ExecuteConfig :=
  if rc.dockerCmd = [] then
    .error "docker_cmd is required in judge config"
  else
    let workDir := if rc.workDir = "" then "/home/judge" else rc.workDir
    let timeout := if rc.timeout = 0 then 600 else rc.timeout
    let memoryLimit := if rc.memoryLimit = 0 then 2048 else rc.memoryLimit
    let env0 := rc.env
    let env1 := envSet env0 "SOLUTION_ID" soln.solutionId
    let env2 := envSet env1 "TASK_ID" soln.taskId
    let env3 := envSet env2 "USER_ID" soln.userId
    let env4 := envSet env3 "CONTEST_ID" soln.contestId
    let env5 := envSet env4 "SOLUTION_DATA_URL" soln.solutionDataUrl
    let env6 := envSet env5 "SOLUTION_DATA_HASH" soln.solutionDataHash
    let env7 := envSet env6 "PROBLEM_DATA_URL" soln.problemDataUrl
    let env8 := envSet env7 "PROBLEM_DATA_HASH" soln.problemDataHash
    let env9 := envSet env8 "PROBLEM_LABEL" soln.problemConfig.label
    let env10 := envSet env9 "JUDGE_ADAPTER" soln.problemConfig.judge.adapter
    let env11 :=
      match rc.vars with
      | some v => envSet env10 "JUDGE_VARIABLES" v.serialized
      | none => env10
    let env12 := envSet env11 "OUTPUT_DIR" "/output"
    .ok
      { image := rc.image
        command := rc.dockerCmd
        timeout := timeout
        memoryLimit := memoryLimit
        cpuLimit := rc.cpuLimit
        env := env12
        workDir := workDir
        mounts :=
          [⟨outputDir, "/output", false⟩] ++ rc.mounts ++
            (if sharedVolumePath = "" then []
             else
               [⟨sharedVolumePath, "/data", true⟩,
                ⟨sharedVolumePath ++ "/uv-cache", "/root/.cache/uv", false⟩]) }

/-- Report artifact file name (`Manager.run`, lfs1 adapter branch): the
string-typed `report_name` variable when present and nonempty, otherwise
"report.json". -/
def reportFileName (rc : RunningConfig) : String :=
  match rc.vars with
  | some v =>
    match v.reportName with
    | some n => if n = "" then "report.json" else n
    | none => "report.json"
  | none => "report.json"

/-! ### Sandbox execution outcome and per-task scenario -/

/-- Result of one sandbox run: `executor.ExecuteResult`
(exit code, TimedOut, OOM). -/
structure ExecOutcome where
  exitCode : Int
  timedOut : Bool
  oom : Bool
deriving Repr, DecidableEq

/-- Observable behaviour of one sandbox execution: the decoded output lines
streamed to the callback, in emission order, and the terminal result
(`none` models an infrastructure failure, the non-nil error return of
`ExecuteWithLogs`). -/
structure ExecBehavior where
  lines : List (Option ProtoMessage)
  outcome : Option ExecOutcome

/-- Environment-supplied facts of one task run: what the sandbox did, whether
the temp output directory could be created (`os.MkdirTemp`), its path, and
the report artifact (`none`: `os.Stat` failed, file absent; `some none`: file
present but `ParsePytestReport` failed; `some (some r)`: file present and
parsed as `r`). -/
structure Scenario where
  exec : ExecBehavior
  mkdirOk : Bool
  outputDir : String
  reportFile : Option (Option PytestReport)

/-! ### The orchestrator (internal/manager: Manager.run, Manager.Start,
Manager.failSoln), as an event-trace function -/

/-- Initial "Running" patch issued right after the judge config parses
(`Manager.run`); the Go struct literal leaves the score at its zero value. -/
def runningInfo : SolutionInfo :=
  ⟨0, "Running", "评测开始"⟩

/-- Patch forced by a timeout outcome. -/
def tleInfo (timeout : Int) : SolutionInfo :=
  ⟨0, StatusTimeLimitExceeded,
    "评测超时（限制 " ++ toString timeout ++ " 秒）"⟩

/-- Events of the timeout finalization branch: patch, save-details,
complete. -/
def tleTrace (timeout : Int) : List Event :=
  [Event.qcall (QCall.patch (tleInfo timeout)),
   Event.qcall (QCall.saveDetails
     ⟨0, "评测超时，时间限制 " ++ toString timeout ++ " 秒", []⟩),
   Event.qcall QCall.complete]

/-- Patch forced by an out-of-memory outcome. -/
def mleInfo (memoryLimit : Int) : SolutionInfo :=
  ⟨0, StatusMemoryLimitExceeded,
    "内存超限（限制 " ++ toString memoryLimit ++ " MB）"⟩

/-- Events of the out-of-memory finalization branch. -/
def mleTrace (memoryLimit : Int) : List Event :=
  [Event.qcall (QCall.patch (mleInfo memoryLimit)),
   Event.qcall (QCall.saveDetails
     ⟨0, "内存超限，内存限制 " ++ toString memoryLimit ++ " MB", []⟩),
   Event.qcall QCall.complete]

/-- Patch issued when the report file exists but fails to parse.  The source
embeds the parse error's text; the model keeps the fixed prefix. -/
def parseFailInfo : SolutionInfo :=
  ⟨0, StatusInternalError, "解析评测报告失败"⟩

/-- Generic internal-error patch for a non-zero exit with no processed
report. -/
def genericErrInfo (exitCode : Int) : SolutionInfo :=
  ⟨0, StatusInternalError,
    "评测异常退出（退出码 " ++ toString exitCode ++ "），未找到评测报告"⟩

/-- Whether the external report was parsed and reported
(the `reportProcessed` flag of `Manager.run`): requires the lfs1 adapter,
a present artifact, and a successful parse. -/
def reportProcessed (adapter : String)
    (reportFile : Option (Option PytestReport)) : Bool :=
  if adapter = "lfs1" then
    match reportFile with
    | some (some _) => true
    | _ => false
  else false

/-- Queue calls of the external-report branch of `Manager.run`: nothing when
the adapter is not lfs1 or the artifact is absent; a parse-failure patch when
it does not parse; the adapter's patch and save-details when it does. -/
def reportEvents (adapter : String)
    (reportFile : Option (Option PytestReport)) : List Event :=
  if adapter = "lfs1" then
    match reportFile with
    | none => []
    | some none => [Event.qcall (QCall.patch parseFailInfo)]
    | some (some rep) =>
      let r := CalculateScore rep
      [Event.qcall (QCall.patch ⟨r.score, r.status, r.message⟩),
       Event.qcall (QCall.saveDetails r.details)]
  else []

/-- Finalization of `Manager.run` once the executor returned an outcome:
the timeout branch returns first, then the OOM branch, otherwise the report
branch, then the generic-error patch for an unprocessed non-zero exit, and
the terminal complete call. -/
def finalizeEvents (cfg : ExecuteConfig) (adapter : String)
    (out : ExecOutcome) (reportFile : Option (Option PytestReport)) :
    List Event :=
  if out.timedOut then tleTrace cfg.timeout
  else if out.oom then mleTrace cfg.memoryLimit
  else
    reportEvents adapter reportFile ++
      (if reportProcessed adapter reportFile = false ∧ out.exitCode ≠ 0 then
        [Event.qcall (QCall.patch (genericErrInfo out.exitCode))]
       else []) ++
      [Event.qcall QCall.complete]

/-- Events produced by streaming the sandbox's output lines through
`processMessage`, in emission order. -/
def lineEvents (lines : List (Option ProtoMessage)) : List Event :=
  lines.flatMap (fun l => (processMessage l).map Event.qcall)

/-- One orchestrated task run (`Manager.run`): the queue-call/exec trace it
produces and, on failure, the error it returns to `Manager.Start`. -/
def run (sharedVolumePath : String) (soln : SolutionPoll) (sc : Scenario) :
    List Event × Option String :=
  match soln.problemConfig.judge.config with
  | .error e => ([], some ("failed to parse judge config: " ++ e))
  | .ok rc =>
    let tr0 := [Event.qcall (QCall.patch runningInfo)]
    if sc.mkdirOk then
      match buildExecuteConfig soln rc sc.outputDir sharedVolumePath with
      | .error e => (tr0, some ("failed to build execute config: " ++ e))
      | .ok cfg =>
        let tr1 := tr0 ++ [Event.execStart] ++ lineEvents sc.exec.lines
        match sc.exec.outcome with
        | none => (tr1, some "docker execution failed")
        | some out =>
          (tr1 ++
            finalizeEvents cfg soln.problemConfig.judge.adapter out
              sc.reportFile,
            none)
    else (tr0, some "failed to create temp output dir")

/-- Best-effort failure report (`Manager.failSoln`): zero score, generic
Error status, the reason as message and details summary, then complete. -/
def failTrace (reason : String) : List Event :=
  [Event.qcall (QCall.patch ⟨0, StatusError, reason⟩),
   Event.qcall (QCall.saveDetails ⟨0, reason, []⟩),
   Event.qcall QCall.complete]

/-- One full task iteration of `Manager.Start`: run the task; when `run`
returns an error, attempt the best-effort failure report with the wrapped
error text. -/
def handleTask (sharedVolumePath : String) (soln : SolutionPoll)
    (sc : Scenario) : List Event :=
  match run sharedVolumePath soln sc with
  | (tr, none) => tr
  | (tr, some e) => tr ++ failTrace ("Failed to run solution: " ++ e)

/-! ### Trace observers -/

/-- Whether an event is a terminal complete call to the queue. -/
def isCompleteCall : Event → Bool
  | .qcall .complete => true
  | _ => false

/-- Number of complete calls in a trace. -/
def completeCount (tr : List Event) : Nat :=
  tr.countP isCompleteCall

/-- Whether a decoded line is a Complete protocol message. -/
def isCompleteMsg : Option ProtoMessage → Bool
  | some .complete => true
  | _ => false

/-- Whether a decoded line is terminal protocol traffic: a Complete message,
or a Patch message whose body unmarshalled. -/
def isTerminalMsg : Option ProtoMessage → Bool
  | some .complete => true
  | some (.patch (some _)) => true
  | _ => false

/-- The patch carried by an event, when it is one. -/
def patchOf : Event → Option SolutionInfo
  | .qcall (.patch i) => some i
  | _ => none

/-- Last patch of a trace: with last-write-wins queue semantics (spec §3,
Solution Info), this is the solution info the queue is left with. -/
def lastPatch (tr : List Event) : Option SolutionInfo :=
  (tr.filterMap patchOf).getLast?

/-- Whether a line is not valid protocol traffic: the codec rejected it
(not valid JSON or unrecognized action tag), or its body did not unmarshal
into the recognized action's schema. -/
def notProtocolTraffic : Option ProtoMessage → Bool
  | none => true
  | some (.log none) => true
  | some (.error none) => true
  | some (.patch none) => true
  | some (.detail none) => true
  | _ => false

/-- The enumerated terminal status set (spec §4.1). -/
def terminalStatuses : List String :=
  [StatusAccepted, StatusWrongAnswer, StatusTimeLimitExceeded,
   StatusMemoryLimitExceeded, StatusRuntimeError, StatusCompileError,
   StatusError]

/-! ### Concrete fixtures used by witnesses and counterexamples -/

/-- A pytest report of an empty test suite: nothing collected, nothing run
(pytest exits 5 when no tests are collected). -/
def emptyReport : PytestReport :=
  { created := 0, duration := 0, exitCode := 5, root := "/home/judge",
    summary := ⟨0, 0, 0, 0, 0, 0⟩, tests := [] }

/-- A pytest report with one passing and one failing test. -/
def mixedReport : PytestReport :=
  { created := 0, duration := 2, exitCode := 1, root := "/home/judge",
    summary := { passed := 1, failed := 1, skipped := 0, xfailed := 0,
                 total := 2, collected := 2 },
    tests :=
      [{ nodeId := "tests/test_a.py::test_ok", lineno := 3,
         outcome := "passed", keywords := [], setup := none, call := none,
         teardown := none },
       { nodeId := "tests/test_a.py::test_bad", lineno := 9,
         outcome := "failed", keywords := [], setup := none, call := none,
         teardown := none }] }

/-- A well-formed judge running configuration with defaulted limits. -/
def rc1 : RunningConfig :=
  { image := "judge-image:latest", preCmd := [], dockerCmd := ["/judge.sh"],
    postCmd := [], timeout := 0, memoryLimit := 0, cpuLimit := 1,
    env := fun _ => none, workDir := "", mounts := [], vars := none }

/-- A judge running configuration whose custom env map sets the fixed
variable name JUDGE_VARIABLES while declaring no variables map. -/
def rcEvil : RunningConfig :=
  { image := "judge-image:latest", preCmd := [], dockerCmd := ["/judge.sh"],
    postCmd := [], timeout := 300, memoryLimit := 512, cpuLimit := 1,
    env := fun x => if x = "JUDGE_VARIABLES" then some "evil" else none,
    workDir := "", mounts := [], vars := none }

/-- A concrete variables map: one entry, no report_name override. -/
def varsFixture : VarsData :=
  { serialized := "\x7b\x7d", reportName := none }

/-- A judge running configuration that declares a variables map and tries to
shadow two fixed variable names in its env map. -/
def rcShadow : RunningConfig :=
  { image := "judge-image:latest", preCmd := [], dockerCmd := ["/judge.sh"],
    postCmd := [], timeout := 300, memoryLimit := 512, cpuLimit := 1,
    env := fun x =>
      if x = "JUDGE_VARIABLES" then some "evil"
      else if x = "SOLUTION_ID" then some "spoofed" else none,
    workDir := "", mounts := [], vars := some varsFixture }

/-- A polled task whose judge config parses to `rc1`. -/
def soln1 : SolutionPoll :=
  { solutionId := "sol1", taskId := "task1", userId := "user1",
    contestId := "", solutionDataUrl := "https://q/sol",
    solutionDataHash := "h1", problemDataUrl := "https://q/prob",
    problemDataHash := "h2",
    problemConfig :=
      { label := "lfs-hello", judge := { adapter := "lfs1", config := .ok rc1 } } }

/-- A polled task whose judge config does not parse. -/
def solnBadCfg : SolutionPoll :=
  { solutionId := "sol2", taskId := "task2", userId := "user1",
    contestId := "", solutionDataUrl := "https://q/sol",
    solutionDataHash := "h1", problemDataUrl := "https://q/prob",
    problemDataHash := "h2",
    problemConfig :=
      { label := "lfs-hello",
        judge := { adapter := "lfs1",
                   config := .error "unexpected end of JSON input" } } }

/-! ### Claim C3: score computation of the extended adapter -/

/-- C3, counterexample.  The claim asserts that every report with
passed + xfailed = 0 gets status Wrong Answer with the zero-passed message;
but the empty report (total = 0, failed = 0) satisfies the Accepted branch of
the source (failed = 0 and passed = total), so `CalculateScore` returns
Accepted, not Wrong Answer. -/
theorem C3_counterexample :
    emptyReport.summary.passed + emptyReport.summary.xfailed = 0 ∧
    (CalculateScore emptyReport).status = StatusAccepted ∧
    (CalculateScore emptyReport).status ≠ StatusWrongAnswer := by
  refine ⟨rfl, rfl, ?_⟩
  decide

/-- C3, amended.  For every pytest report (counts nonnegative), with
passed⁺ = passed + xfailed: score = 100·passed⁺/total and 0 when total = 0;
status = Accepted iff failed = 0 and passed⁺ = total; status = Wrong Answer
whenever 0 < passed⁺ < total; and when passed⁺ = 0 — except for the empty
report with failed = 0 and total = 0, which is Accepted — the status is
Wrong Answer with the distinct zero-passed message. -/
theorem C3_score_status_message (r : PytestReport)
    (hp : 0 ≤ r.summary.passed) (hf : 0 ≤ r.summary.failed)
    (hs : 0 ≤ r.summary.skipped) (hx : 0 ≤ r.summary.xfailed)
    (htot : 0 ≤ r.summary.total) :
    ((CalculateScore r).score =
      if 0 < r.summary.total then
        100 * ((r.summary.passed + r.summary.xfailed : Int) : ℚ) /
          ((r.summary.total : Int) : ℚ)
      else 0) ∧
    ((CalculateScore r).status = StatusAccepted ↔
      (r.summary.failed = 0 ∧
        r.summary.passed + r.summary.xfailed = r.summary.total)) ∧
    (0 < r.summary.passed + r.summary.xfailed →
      r.summary.passed + r.summary.xfailed < r.summary.total →
      (CalculateScore r).status = StatusWrongAnswer) ∧
    (r.summary.passed + r.summary.xfailed = 0 →
      (0 < r.summary.total ∨ r.summary.failed ≠ 0) →
      (CalculateScore r).status = StatusWrongAnswer ∧
      (CalculateScore r).message =
        "未通过任何测试点 (0/" ++ toString r.summary.total ++ ")" ++
          (if 0 < r.summary.skipped then
            "，跳过 " ++ toString r.summary.skipped ++ " 个"
           else "")) := by
  have hacc : StatusAccepted ≠ StatusWrongAnswer := by decide
  have hstat : (CalculateScore r).status =
      if r.summary.failed = 0 ∧
          r.summary.passed + r.summary.xfailed = r.summary.total then
        StatusAccepted
      else StatusWrongAnswer := by
    unfold CalculateScore
    dsimp only
    split_ifs <;> rfl
  have hscore : (CalculateScore r).score =
      if r.summary.total > 0 then
        ((r.summary.passed + r.summary.xfailed : Int) : ℚ) /
          ((r.summary.total : Int) : ℚ) * 100
      else 0 := by
    unfold CalculateScore
    dsimp only
  refine ⟨?_, ?_, ?_, ?_⟩
  · rw [hscore]
    split_ifs with h1
    · ring
    · rfl
  · rw [hstat]
    constructor
    · intro h
      split_ifs at h with hcond
      · exact hcond
      · exact absurd h hacc.symm
    · intro hcond
      rw [if_pos hcond]
  · intro h1 h2
    rw [hstat]
    rw [if_neg ?_]
    rintro ⟨hf0, he⟩
    omega
  · intro h0 hne
    have hxz : r.summary.xfailed = 0 := by omega
    have hcond : ¬ (r.summary.failed = 0 ∧
        r.summary.passed + r.summary.xfailed = r.summary.total) := by
      rintro ⟨hf0, he⟩
      omega
    refine ⟨by rw [hstat, if_neg hcond], ?_⟩
    have hmsg : (CalculateScore r).message =
        ((if r.summary.failed = 0 ∧
              r.summary.passed + r.summary.xfailed = r.summary.total then
            (StatusAccepted,
              "全部通过 " ++ toString (r.summary.passed + r.summary.xfailed)
                ++ "/" ++ toString r.summary.total ++ " 测试点")
          else if r.summary.passed + r.summary.xfailed > 0 then
            (StatusWrongAnswer,
              "通过 " ++ toString (r.summary.passed + r.summary.xfailed)
                ++ "/" ++ toString r.summary.total ++ " 测试点，失败 "
                ++ toString r.summary.failed ++ " 个")
          else
            (StatusWrongAnswer,
              "未通过任何测试点 (0/" ++ toString r.summary.total ++ ")")).2 ++
          (if r.summary.skipped > 0 then
            "，跳过 " ++ toString r.summary.skipped ++ " 个"
           else "")) ++
          (if r.summary.xfailed > 0 then
            "，预期失败 " ++ toString r.summary.xfailed ++ " 个"
           else "") := by
      unfold CalculateScore
      dsimp only
    rw [hmsg, if_neg hcond, if_neg (by omega :
      ¬ r.summary.passed + r.summary.xfailed > 0), if_neg (by omega :
      ¬ r.summary.xfailed > 0)]
    simp

/-- C3, witness: the amended theorem applied to the mixed report
(1 passed, 1 failed out of 2). -/
theorem C3_witness :
    (0 ≤ mixedReport.summary.passed ∧ 0 ≤ mixedReport.summary.total) ∧
    ((CalculateScore mixedReport).score =
      if 0 < mixedReport.summary.total then
        100 * ((mixedReport.summary.passed + mixedReport.summary.xfailed :
          Int) : ℚ) / ((mixedReport.summary.total : Int) : ℚ)
      else 0) ∧
    ((CalculateScore mixedReport).status = StatusAccepted ↔
      (mixedReport.summary.failed = 0 ∧
        mixedReport.summary.passed + mixedReport.summary.xfailed =
          mixedReport.summary.total)) ∧
    (0 < mixedReport.summary.passed + mixedReport.summary.xfailed →
      mixedReport.summary.passed + mixedReport.summary.xfailed <
        mixedReport.summary.total →
      (CalculateScore mixedReport).status = StatusWrongAnswer) ∧
    (mixedReport.summary.passed + mixedReport.summary.xfailed = 0 →
      (0 < mixedReport.summary.total ∨ mixedReport.summary.failed ≠ 0) →
      (CalculateScore mixedReport).status = StatusWrongAnswer ∧
      (CalculateScore mixedReport).message =
        "未通过任何测试点 (0/" ++ toString mixedReport.summary.total ++ ")" ++
          (if 0 < mixedReport.summary.skipped then
            "，跳过 " ++ toString mixedReport.summary.skipped ++ " 个"
           else "")) :=
  ⟨⟨by decide, by decide⟩,
    C3_score_status_message mixedReport (by decide) (by decide) (by decide)
      (by decide) (by decide)⟩

/-! ### Claim C5: malformed or unrecognized lines are inert -/

/-- C5.  Every output line that is not valid protocol traffic — the codec
rejected it, or the recognized action's body did not unmarshal — produces no
queue call in `processMessage` (and `processMessage` is total, so nothing is
raised to the task pipeline): Solution Info and Solution Details are
untouched. -/
theorem C5_nonprotocol_lines_inert (l : Option ProtoMessage)
    (h : notProtocolTraffic l = true) : processMessage l = [] := by
  rcases l with _ | m
  · rfl
  · cases m with
    | greet => rfl
    | noop => rfl
    | quit => rfl
    | log b => rfl
    | error b =>
      rcases b with _ | s
      · rfl
      · simp [notProtocolTraffic] at h
    | patch b =>
      rcases b with _ | s
      · rfl
      · simp [notProtocolTraffic] at h
    | detail b =>
      rcases b with _ | s
      · rfl
      · simp [notProtocolTraffic] at h
    | complete => simp [notProtocolTraffic] at h

/-- C5, witness: a line the codec rejects. -/
theorem C5_witness :
    notProtocolTraffic none = true ∧ processMessage none = [] :=
  ⟨rfl, C5_nonprotocol_lines_inert none rfl⟩

/-! ### Claim C7: instance default timeout and memory limit -/

/-- C7.  When the judge config leaves the timeout or memory limit at zero,
the built execution specification uses the instance defaults (600 s,
2048 MB); declared nonzero values pass through unchanged. -/
theorem C7_default_limits (soln : SolutionPoll) (rc : RunningConfig)
    (outputDir sharedVolumePath : String) (h : rc.dockerCmd ≠ []) :
    (buildExecuteConfig soln rc outputDir sharedVolumePath).map
        (fun c => c.timeout) =
      .ok (if rc.timeout = 0 then 600 else rc.timeout) ∧
    (buildExecuteConfig soln rc outputDir sharedVolumePath).map
        (fun c => c.memoryLimit) =
      .ok (if rc.memoryLimit = 0 then 2048 else rc.memoryLimit) := by
  unfold buildExecuteConfig
  rw [if_neg h]
  exact ⟨rfl, rfl⟩

/-- C7, witness: `rc1` declares neither limit, so both defaults apply. -/
theorem C7_witness :
    rc1.dockerCmd ≠ [] ∧
    (buildExecuteConfig soln1 rc1 "/tmp/out" "").map (fun c => c.timeout) =
      .ok (if rc1.timeout = 0 then 600 else rc1.timeout) ∧
    (buildExecuteConfig soln1 rc1 "/tmp/out" "").map
        (fun c => c.memoryLimit) =
      .ok (if rc1.memoryLimit = 0 then 2048 else rc1.memoryLimit) :=
  ⟨by decide, C7_default_limits soln1 rc1 "/tmp/out" "" (by decide)⟩

/-! ### Claim C8: the extended adapter refines the simplified one -/

/-- C8.  On any report whose summary has zero xfailed tests, the simplified
(earlier) and extended (later) `CalculateScore` agree on score, status and
message. -/
theorem C8_v1_v2_agree (r : PytestReport) (h : r.summary.xfailed = 0) :
    (CalculateScoreV1 (forgetV1 r)).score = (CalculateScore r).score ∧
    (CalculateScoreV1 (forgetV1 r)).status = (CalculateScore r).status ∧
    (CalculateScoreV1 (forgetV1 r)).message = (CalculateScore r).message := by
  unfold CalculateScore CalculateScoreV1 forgetV1
  dsimp only
  rw [h]
  simp

/-- C8, witness: agreement on the mixed report (which has zero xfailed). -/
theorem C8_witness :
    mixedReport.summary.xfailed = 0 ∧
    ((CalculateScoreV1 (forgetV1 mixedReport)).score =
        (CalculateScore mixedReport).score ∧
      (CalculateScoreV1 (forgetV1 mixedReport)).status =
        (CalculateScore mixedReport).status ∧
      (CalculateScoreV1 (forgetV1 mixedReport)).message =
        (CalculateScore mixedReport).message) :=
  ⟨rfl, C8_v1_v2_agree mixedReport rfl⟩

/-! ### Claim C9: fixed environment variables vs the task env map -/

/-- C9, counterexample.  The claim asserts a judge configuration can never
shadow the fixed variable names; but JUDGE_VARIABLES is only injected when
the config declares a variables map, so a config with no variables map and a
custom env entry named JUDGE_VARIABLES keeps its own value in the built
environment. -/
theorem C9_counterexample :
    rcEvil.vars = none ∧
    rcEvil.env "JUDGE_VARIABLES" = some "evil" ∧
    (buildExecuteConfig soln1 rcEvil "/tmp/out" "").map
        (fun c => c.env "JUDGE_VARIABLES") = .ok (some "evil") := by
  refine ⟨rfl, by decide, ?_⟩
  rfl

/-- C9, amended.  The fixed variables other than JUDGE_VARIABLES
(SOLUTION_ID, TASK_ID, USER_ID, CONTEST_ID, SOLUTION_DATA_URL,
SOLUTION_DATA_HASH, PROBLEM_DATA_URL, PROBLEM_DATA_HASH, PROBLEM_LABEL,
JUDGE_ADAPTER, OUTPUT_DIR) always overwrite any task-declared env entry of
the same name; JUDGE_VARIABLES overwrites the task env only when the config
declares a variables map. -/
theorem C9_fixed_env_precedence (soln : SolutionPoll) (rc : RunningConfig)
    (outputDir sharedVolumePath : String) (h : rc.dockerCmd ≠ []) :
    ((buildExecuteConfig soln rc outputDir sharedVolumePath).map
        (fun c => c.env "SOLUTION_ID") = .ok (some soln.solutionId)) ∧
    ((buildExecuteConfig soln rc outputDir sharedVolumePath).map
        (fun c => c.env "TASK_ID") = .ok (some soln.taskId)) ∧
    ((buildExecuteConfig soln rc outputDir sharedVolumePath).map
        (fun c => c.env "USER_ID") = .ok (some soln.userId)) ∧
    ((buildExecuteConfig soln rc outputDir sharedVolumePath).map
        (fun c => c.env "CONTEST_ID") = .ok (some soln.contestId)) ∧
    ((buildExecuteConfig soln rc outputDir sharedVolumePath).map
        (fun c => c.env "SOLUTION_DATA_URL") =
          .ok (some soln.solutionDataUrl)) ∧
    ((buildExecuteConfig soln rc outputDir sharedVolumePath).map
        (fun c => c.env "SOLUTION_DATA_HASH") =
          .ok (some soln.solutionDataHash)) ∧
    ((buildExecuteConfig soln rc outputDir sharedVolumePath).map
        (fun c => c.env "PROBLEM_DATA_URL") =
          .ok (some soln.problemDataUrl)) ∧
    ((buildExecuteConfig soln rc outputDir sharedVolumePath).map
        (fun c => c.env "PROBLEM_DATA_HASH") =
          .ok (some soln.problemDataHash)) ∧
    ((buildExecuteConfig soln rc outputDir sharedVolumePath).map
        (fun c => c.env "PROBLEM_LABEL") =
          .ok (some soln.problemConfig.label)) ∧
    ((buildExecuteConfig soln rc outputDir sharedVolumePath).map
        (fun c => c.env "JUDGE_ADAPTER") =
          .ok (some soln.problemConfig.judge.adapter)) ∧
    ((buildExecuteConfig soln rc outputDir sharedVolumePath).map
        (fun c => c.env "OUTPUT_DIR") = .ok (some "/output")) ∧
    (∀ v, rc.vars = some v →
      (buildExecuteConfig soln rc outputDir sharedVolumePath).map
        (fun c => c.env "JUDGE_VARIABLES") = .ok (some v.serialized)) := by
  unfold buildExecuteConfig
  rw [if_neg h]
  refine ⟨?_, ?_, ?_, ?_, ?_, ?_, ?_, ?_, ?_, ?_, ?_, ?_⟩
  case _ => cases hv : rc.vars <;> simp [Except.map, envSet, hv]
  case _ => cases hv : rc.vars <;> simp [Except.map, envSet, hv]
  case _ => cases hv : rc.vars <;> simp [Except.map, envSet, hv]
  case _ => cases hv : rc.vars <;> simp [Except.map, envSet, hv]
  case _ => cases hv : rc.vars <;> simp [Except.map, envSet, hv]
  case _ => cases hv : rc.vars <;> simp [Except.map, envSet, hv]
  case _ => cases hv : rc.vars <;> simp [Except.map, envSet, hv]
  case _ => cases hv : rc.vars <;> simp [Except.map, envSet, hv]
  case _ => cases hv : rc.vars <;> simp [Except.map, envSet, hv]
  case _ => cases hv : rc.vars <;> simp [Except.map, envSet, hv]
  case _ => cases hv : rc.vars <;> simp [Except.map, envSet, hv]
  case _ =>
    intro v hv
    simp [Except.map, envSet, hv]

/-- C9, witness for the amended precedence theorem: a config that declares a
variables map and tries to shadow SOLUTION_ID and JUDGE_VARIABLES in its env
map still gets the injected values. -/
theorem C9_witness :
    rcShadow.dockerCmd ≠ [] ∧
    (buildExecuteConfig soln1 rcShadow "/tmp/out" "").map
        (fun c => c.env "SOLUTION_ID") = .ok (some soln1.solutionId) ∧
    (buildExecuteConfig soln1 rcShadow "/tmp/out" "").map
        (fun c => c.env "JUDGE_VARIABLES") =
      .ok (some (varsFixture.serialized)) :=
  ⟨by decide,
    (C9_fixed_env_precedence soln1 rcShadow "/tmp/out" "" (by decide)).1,
    (C9_fixed_env_precedence soln1 rcShadow "/tmp/out" ""
      (by decide)).2.2.2.2.2.2.2.2.2.2.2 varsFixture rfl⟩

/-! ### Trace-counting helper lemmas -/

theorem completeCount_append (a b : List Event) :
    completeCount (a ++ b) = completeCount a + completeCount b := by
  unfold completeCount
  exact List.countP_append ..

theorem countP_qcall_processMessage (l : Option ProtoMessage) :
    ((processMessage l).map Event.qcall).countP isCompleteCall =
      (isCompleteMsg l).toNat := by
  rcases l with _ | m
  · rfl
  · cases m with
    | greet => rfl
    | noop => rfl
    | quit => rfl
    | complete => rfl
    | log b => rfl
    | error b => rcases b with _ | s <;> rfl
    | patch b => rcases b with _ | s <;> rfl
    | detail b => rcases b with _ | s <;> rfl

theorem completeCount_lineEvents (ls : List (Option ProtoMessage)) :
    completeCount (lineEvents ls) = ls.countP isCompleteMsg := by
  unfold completeCount lineEvents
  induction ls with
  | nil => rfl
  | cons hd tl ih =>
    rw [List.flatMap_cons, List.countP_append, List.countP_cons,
      countP_qcall_processMessage hd, ih]
    cases h : isCompleteMsg hd <;> simp [h, Nat.add_comm]

theorem completeCount_reportEvents (a : String)
    (rf : Option (Option PytestReport)) :
    completeCount (reportEvents a rf) = 0 := by
  unfold completeCount reportEvents
  split_ifs with h
  · rcases rf with _ | rf2
    · rfl
    · rcases rf2 with _ | rep <;> rfl
  · rfl

theorem completeCount_finalizeEvents (cfg : ExecuteConfig) (a : String)
    (out : ExecOutcome) (rf : Option (Option PytestReport)) :
    completeCount (finalizeEvents cfg a out rf) = 1 := by
  unfold finalizeEvents
  split_ifs with h1 h2 h3
  · rfl
  · rfl
  · rw [completeCount_append, completeCount_append,
      completeCount_reportEvents]
    rfl
  · rw [completeCount_append, completeCount_append,
      completeCount_reportEvents]
    rfl

theorem completeCount_failTrace (r : String) :
    completeCount (failTrace r) = 1 := rfl

theorem lastPatch_append_of_some {l₂ : List Event} {i : SolutionInfo}
    (l₁ : List Event) (h : lastPatch l₂ = some i) :
    lastPatch (l₁ ++ l₂) = some i := by
  unfold lastPatch at *
  rw [List.filterMap_append, List.getLast?_append, h]
  rfl

theorem lastPatch_tleTrace (t : Int) :
    lastPatch (tleTrace t) = some (tleInfo t) := rfl

theorem lastPatch_mleTrace (m : Int) :
    lastPatch (mleTrace m) = some (mleInfo m) := rfl

/-! ### Claim C1: exactly one terminal complete call per task -/

/-- Scenario of a normal run: two non-protocol lines, exit 0, a parseable
report artifact, no Complete message from the sandbox. -/
def scNormal : Scenario :=
  { exec := { lines := [none, some .greet],
              outcome := some ⟨0, false, false⟩ },
    mkdirOk := true, outputDir := "/tmp/judge-output-sol1",
    reportFile := some (some mixedReport) }

/-- Scenario in which the sandbox itself emits a Complete protocol message
and then exits normally with no report artifact. -/
def scCompleteMsg : Scenario :=
  { exec := { lines := [some .complete],
              outcome := some ⟨0, false, false⟩ },
    mkdirOk := true, outputDir := "/tmp/judge-output-sol1",
    reportFile := none }

/-- Scenario of a run that both timed out and was OOM-killed, with an earlier
sandbox patch in the stream. -/
def scTimeout : Scenario :=
  { exec := { lines := [some (.patch (some ⟨95, "Accepted", "early"⟩))],
              outcome := some ⟨137, true, true⟩ },
    mkdirOk := true, outputDir := "/tmp/judge-output-sol1",
    reportFile := none }

/-- Scenario of a run that was OOM-killed without timing out, with an
earlier sandbox patch in the stream. -/
def scOOM : Scenario :=
  { exec := { lines := [some (.patch (some ⟨95, "Accepted", "early"⟩))],
              outcome := some ⟨137, false, true⟩ },
    mkdirOk := true, outputDir := "/tmp/judge-output-sol1",
    reportFile := none }

/-- Scenario of a sandbox that exits 1, never sends terminal traffic, and
leaves no report artifact. -/
def scExitNoReport : Scenario :=
  { exec := { lines := [none], outcome := some ⟨1, false, false⟩ },
    mkdirOk := true, outputDir := "/tmp/judge-output-sol1",
    reportFile := none }

/-- C1, counterexample.  The claim asserts the complete-call count stays one
even when the sandbox emits a Complete protocol message during streaming; but
`processMessage` issues a Complete call for that message and the finalization
then issues its own terminal Complete, so the queue receives two. -/
theorem C1_counterexample :
    completeCount (handleTask "" soln1 scCompleteMsg) = 2 ∧
    completeCount (handleTask "" soln1 scCompleteMsg) ≠ 1 := by
  refine ⟨rfl, ?_⟩
  decide

/-- C1, amended.  On every path — normal exit, timeout, OOM, config error,
mkdir failure, infrastructure error — the orchestrator issues exactly one
terminal complete call of its own, so the total count is one whenever the
sandbox streams no Complete protocol message; each streamed Complete message
adds one further complete call on top of that. -/
theorem C1_single_complete (sharedVolumePath : String) (soln : SolutionPoll)
    (sc : Scenario) (h : sc.exec.lines.countP isCompleteMsg = 0) :
    completeCount (handleTask sharedVolumePath soln sc) = 1 := by
  unfold handleTask run
  cases hc : soln.problemConfig.judge.config with
  | error e =>
    simp only [List.nil_append]
    exact completeCount_failTrace _
  | ok rc =>
    by_cases hm : sc.mkdirOk = true
    · simp only [hm, if_true]
      cases hb : buildExecuteConfig soln rc sc.outputDir sharedVolumePath with
      | error e =>
        simp only [completeCount_append, completeCount_failTrace]
        rfl
      | ok cfg =>
        cases ho : sc.exec.outcome with
        | none =>
          simp only [completeCount_append, completeCount_lineEvents, h,
            completeCount_failTrace]
          rfl
        | some out =>
          simp only [completeCount_append, completeCount_lineEvents, h,
            completeCount_finalizeEvents]
          rfl
    · dsimp only
      rw [if_neg hm]
      rfl

/-- C1, witness: a normal run with no sandbox Complete message yields exactly
one complete call. -/
theorem C1_witness :
    scNormal.exec.lines.countP isCompleteMsg = 0 ∧
    completeCount (handleTask "" soln1 scNormal) = 1 :=
  ⟨rfl, C1_single_complete "" soln1 scNormal rfl⟩

/-! ### Claim C2: timeout and OOM outcome policy -/

/-- C2.  Whenever the outcome has timedOut set — regardless of the OOM flag,
so timeout takes precedence when both could apply — the finalization patches
score 0 with the Time Limit Exceeded status as the last patch of the task's
trace, overriding any score the sandbox patched earlier (last write wins on
the queue side); and whenever the outcome has OOM set without timedOut, the
finalization patches score 0 with the Memory Limit Exceeded status as the
last patch, likewise overriding any earlier sandbox patch. -/
theorem C2_timeout_oom_policy (sharedVolumePath : String)
    (soln : SolutionPoll) (sc : Scenario) (rc : RunningConfig)
    (out : ExecOutcome)
    (hc : soln.problemConfig.judge.config = .ok rc)
    (hm : sc.mkdirOk = true)
    (hd : rc.dockerCmd ≠ [])
    (ho : sc.exec.outcome = some out) :
    (out.timedOut = true →
      lastPatch (handleTask sharedVolumePath soln sc) =
        some (tleInfo (if rc.timeout = 0 then 600 else rc.timeout)) ∧
      (tleInfo (if rc.timeout = 0 then 600 else rc.timeout)).score = 0 ∧
      (tleInfo (if rc.timeout = 0 then 600 else rc.timeout)).status =
        StatusTimeLimitExceeded) ∧
    (out.timedOut = false → out.oom = true →
      lastPatch (handleTask sharedVolumePath soln sc) =
        some (mleInfo (if rc.memoryLimit = 0 then 2048 else rc.memoryLimit)) ∧
      (mleInfo (if rc.memoryLimit = 0 then 2048 else rc.memoryLimit)).score =
        0 ∧
      (mleInfo (if rc.memoryLimit = 0 then 2048 else rc.memoryLimit)).status =
        StatusMemoryLimitExceeded) := by
  constructor
  · intro ht
    refine ⟨?_, rfl, rfl⟩
    unfold handleTask run
    rw [hc]
    dsimp only
    rw [if_pos hm]
    unfold buildExecuteConfig
    rw [if_neg hd]
    dsimp only
    rw [ho]
    dsimp only
    unfold finalizeEvents
    rw [if_pos ht]
    exact lastPatch_append_of_some _ (lastPatch_tleTrace _)
  · intro ht2 hoo
    refine ⟨?_, rfl, rfl⟩
    unfold handleTask run
    rw [hc]
    dsimp only
    rw [if_pos hm]
    unfold buildExecuteConfig
    rw [if_neg hd]
    dsimp only
    rw [ho]
    dsimp only
    unfold finalizeEvents
    rw [if_neg (by simp [ht2]), if_pos hoo]
    exact lastPatch_append_of_some _ (lastPatch_mleTrace _)

/-- C2, witness: a run with both timedOut and OOM set ends with the
zero-score TLE patch (timeout precedence), and a run with OOM only ends
with the zero-score MLE patch, in both cases overriding the sandbox's
earlier 95/Accepted patch. -/
theorem C2_witness :
    (soln1.problemConfig.judge.config = .ok rc1 ∧
      scTimeout.mkdirOk = true ∧ rc1.dockerCmd ≠ [] ∧
      scTimeout.exec.outcome = some ⟨137, true, true⟩ ∧
      scOOM.exec.outcome = some ⟨137, false, true⟩) ∧
    (lastPatch (handleTask "" soln1 scTimeout) =
        some (tleInfo (if rc1.timeout = 0 then 600 else rc1.timeout)) ∧
      (tleInfo (if rc1.timeout = 0 then 600 else rc1.timeout)).score = 0 ∧
      (tleInfo (if rc1.timeout = 0 then 600 else rc1.timeout)).status =
        StatusTimeLimitExceeded) ∧
    (lastPatch (handleTask "" soln1 scOOM) =
        some (mleInfo (if rc1.memoryLimit = 0 then 2048
          else rc1.memoryLimit)) ∧
      (mleInfo (if rc1.memoryLimit = 0 then 2048
        else rc1.memoryLimit)).score = 0 ∧
      (mleInfo (if rc1.memoryLimit = 0 then 2048
        else rc1.memoryLimit)).status = StatusMemoryLimitExceeded) :=
  ⟨⟨rfl, rfl, by decide, rfl, rfl⟩,
    (C2_timeout_oom_policy "" soln1 scTimeout rc1 ⟨137, true, true⟩ rfl rfl
      (by decide) rfl).1 rfl,
    (C2_timeout_oom_policy "" soln1 scOOM rc1 ⟨137, false, true⟩ rfl rfl
      (by decide) rfl).2 rfl rfl⟩

/-! ### Claim C4: generic internal error on unreported non-zero exit -/

/-- C4.  For a run that neither timed out nor hit OOM, whose sandbox exited
non-zero, streamed no terminal Patch/Complete message, and whose report
artifact was not processed, the finalization patches the generic
internal-error info (score 0) immediately before the terminal complete
call. -/
theorem C4_generic_error_before_complete (sharedVolumePath : String)
    (soln : SolutionPoll) (sc : Scenario) (rc : RunningConfig)
    (out : ExecOutcome)
    (hc : soln.problemConfig.judge.config = .ok rc)
    (hm : sc.mkdirOk = true)
    (hd : rc.dockerCmd ≠ [])
    (ho : sc.exec.outcome = some out)
    (ht : out.timedOut = false)
    (hoo : out.oom = false)
    (he : out.exitCode ≠ 0)
    (hterm : sc.exec.lines.countP isTerminalMsg = 0)
    (hrep : reportProcessed soln.problemConfig.judge.adapter sc.reportFile =
      false) :
    (genericErrInfo out.exitCode).score = 0 ∧
    (genericErrInfo out.exitCode).status = StatusInternalError ∧
    [Event.qcall (QCall.patch (genericErrInfo out.exitCode)),
      Event.qcall QCall.complete] <:+
      handleTask sharedVolumePath soln sc := by
  refine ⟨rfl, rfl, ?_⟩
  unfold handleTask run
  rw [hc]
  dsimp only
  rw [if_pos hm]
  unfold buildExecuteConfig
  rw [if_neg hd]
  dsimp only
  rw [ho]
  dsimp only
  unfold finalizeEvents
  rw [if_neg (by simp [ht]), if_neg (by simp [hoo]), if_pos ⟨hrep, he⟩]
  refine ⟨[Event.qcall (QCall.patch runningInfo)] ++ [Event.execStart] ++
    lineEvents sc.exec.lines ++
    reportEvents soln.problemConfig.judge.adapter sc.reportFile, ?_⟩
  simp

/-- C4, witness: exit code 1, no terminal traffic, no report artifact. -/
theorem C4_witness :
    (soln1.problemConfig.judge.config = .ok rc1 ∧
      scExitNoReport.exec.outcome = some ⟨1, false, false⟩ ∧
      scExitNoReport.exec.lines.countP isTerminalMsg = 0 ∧
      reportProcessed soln1.problemConfig.judge.adapter
        scExitNoReport.reportFile = false) ∧
    ((genericErrInfo (1 : Int)).score = 0 ∧
      (genericErrInfo (1 : Int)).status = StatusInternalError ∧
      [Event.qcall (QCall.patch (genericErrInfo (1 : Int))),
        Event.qcall QCall.complete] <:+
        handleTask "" soln1 scExitNoReport) :=
  ⟨⟨rfl, rfl, rfl, by decide⟩,
    C4_generic_error_before_complete "" soln1 scExitNoReport rc1
      ⟨1, false, false⟩ rfl rfl (by decide) rfl rfl rfl (by decide) rfl
      (by decide)⟩

/-! ### Claim C6: config errors fail before dispatch, with a best-effort
failure report -/

/-- C6.  When the judge configuration does not parse, or parses but declares
no docker_cmd, no container is ever dispatched (no exec-start event occurs),
and the caller's best-effort failure report — zero score, Error status, the
wrapped error text as message, then a complete call — ends the task's
trace. -/
theorem C6_config_error_failure_report (sharedVolumePath : String)
    (soln : SolutionPoll) (sc : Scenario)
    (h : (∃ e, soln.problemConfig.judge.config = .error e) ∨
      (∃ rc, soln.problemConfig.judge.config = .ok rc ∧
        rc.dockerCmd = [])) :
    Event.execStart ∉ handleTask sharedVolumePath soln sc ∧
    ∃ msg, failTrace ("Failed to run solution: " ++ msg) <:+
      handleTask sharedVolumePath soln sc := by
  unfold handleTask run
  rcases h with ⟨e, hc⟩ | ⟨rc, hc, hd⟩
  · rw [hc]
    dsimp only
    refine ⟨?_, "failed to parse judge config: " ++ e, List.suffix_rfl⟩
    simp [failTrace]
  · rw [hc]
    dsimp only
    by_cases hm : sc.mkdirOk = true
    · rw [if_pos hm]
      unfold buildExecuteConfig
      rw [if_pos hd]
      dsimp only
      refine ⟨?_, "failed to build execute config: " ++
        "docker_cmd is required in judge config", List.suffix_append _ _⟩
      simp [failTrace]
    · rw [if_neg hm]
      dsimp only
      refine ⟨?_, "failed to create temp output dir",
        List.suffix_append _ _⟩
      simp [failTrace]

/-- C6, witness: a task whose judge config does not parse. -/
theorem C6_witness :
    (∃ e, solnBadCfg.problemConfig.judge.config = .error e) ∧
    (Event.execStart ∉ handleTask "" solnBadCfg scNormal ∧
      ∃ msg, failTrace ("Failed to run solution: " ++ msg) <:+
        handleTask "" solnBadCfg scNormal) :=
  ⟨⟨"unexpected end of JSON input", rfl⟩,
    C6_config_error_failure_report "" solnBadCfg scNormal
      (Or.inl ⟨"unexpected end of JSON input", rfl⟩)⟩

/-! ### Claim C10: the first queue call is the non-terminal Running patch -/

/-- C10.  For every task whose judge configuration parses, the first event of
the task's trace — under every scenario, including one where the sandbox
emits nothing — is the Patch carrying status "Running", a status outside the
enumerated terminal set, and it precedes the container start. -/
theorem C10_first_call_running (sharedVolumePath : String)
    (soln : SolutionPoll) (sc : Scenario) (rc : RunningConfig)
    (hc : soln.problemConfig.judge.config = .ok rc) :
    (handleTask sharedVolumePath soln sc).head? =
      some (Event.qcall (QCall.patch runningInfo)) ∧
    runningInfo.status = "Running" ∧
    runningInfo.status ∉ terminalStatuses := by
  refine ⟨?_, rfl, by decide⟩
  unfold handleTask run
  rw [hc]
  dsimp only
  by_cases hm : sc.mkdirOk = true
  · rw [if_pos hm]
    cases hb : buildExecuteConfig soln rc sc.outputDir sharedVolumePath with
    | error e => rfl
    | ok cfg =>
      cases ho : sc.exec.outcome with
      | none => rfl
      | some out => rfl
  · rw [if_neg hm]
    rfl

/-- C10, witness: the Running patch heads the trace of a run whose sandbox
streams only an undecodable line. -/
theorem C10_witness :
    soln1.problemConfig.judge.config = .ok rc1 ∧
    ((handleTask "" soln1 scExitNoReport).head? =
        some (Event.qcall (QCall.patch runningInfo)) ∧
      runningInfo.status = "Running" ∧
      runningInfo.status ∉ terminalStatuses) :=
  ⟨rfl, C10_first_call_running "" soln1 scExitNoReport rc1 rfl⟩

end Grader
